import Mathlib

/-!
Shallow embedding of the `neko` repository (packages `goauth2`, `gphoto`,
`gclient`) for checking its specification.

The Go code performs HTTP requests and JSON (de)serialization.  We model a
JSON document as an abstract syntax tree `Json` (the result of parsing a
body; a body that `json.Unmarshal` rejects is `ResponseBody.malformed`),
and an HTTP exchange as a `Transport` value describing the single provider
response an operation observes (each public operation performs at most one
outbound request).  Go machine integers (`int64`) are modelled as `Int`
with an explicit range check where decoding enforces one; Go `float64`
JSON numbers are modelled as `Rat` payloads of the AST.
-/

/-- A JSON value.  Object fields are kept in order, duplicates allowed
(as in a parsed wire document); numbers carry their numeric value. -/
inductive Json where
  | null : Json
  | bool (b : Bool) : Json
  | num (q : Rat) : Json
  | str (s : String) : Json
  | arr (elems : List Json) : Json
  | obj (fields : List (String × Json)) : Json

/-- Look up the last binding of a key in a JSON object's field list.
Go's `encoding/json` decoder processes keys in order and later duplicates
overwrite earlier ones, so the last occurrence wins. -/
def lookupLast (fields : List (String × Json)) (key : String) : Option Json :=
  match fields with
  | [] => none
  | (k, v) :: rest =>
    match lookupLast rest key with
    | some r => some r
    | none => if k = key then some v else none

/-- Decode a `string` struct field.  Absent and `null` leave the zero
value `""`; a non-string, non-null value is a decode error. -/
def decodeStrField (fields : List (String × Json)) (key : String) : Option String :=
  match lookupLast fields key with
  | none => some ""
  | some (Json.str s) => some s
  | some Json.null => some ""
  | some _ => none

/-- Decode an `int64` struct field.  Absent and `null` leave the zero
value `0`; a JSON number must be integral and fit in 64 signed bits. -/
def decodeInt64Field (fields : List (String × Json)) (key : String) : Option Int :=
  match lookupLast fields key with
  | none => some 0
  | some (Json.num q) =>
    if q.den = 1 ∧ -(2 ^ 63) ≤ q.num ∧ q.num < 2 ^ 63 then some q.num else none
  | some Json.null => some 0
  | some _ => none

/-- The body of a provider response, as seen by `json.Unmarshal`:
either a byte sequence that is not a JSON document (including the empty
body), or a parsed JSON value. -/
inductive ResponseBody where
  | malformed : ResponseBody
  | parsed (j : Json) : ResponseBody

/-- The outcome of the single HTTP exchange an operation performs:
either a transport-level failure (`http.Client.Do` or reading the body
fails), or a response with a status code and a body. -/
inductive Transport where
  | netFail : Transport
  | respond (status : Nat) (body : ResponseBody) : Transport

/-- Error taxonomy of the spec, as produced by the code's error paths:
a failing `Do`/`ReadAll` is a transport failure (`NetworkError`), a
failing `json.Unmarshal` is a malformed-body failure (`ProtocolError`). -/
inductive GError where
  | NetworkError : GError
  | ProtocolError : GError
deriving DecidableEq, Repr

namespace goauth2

/-- Embeds `goauth2.AuthorizationResponse`: the JSON shape of the token
endpoint's response. -/
structure AuthorizationResponse where
  access_token : String
  id_token : String
  expires_in : Int
  token_type : String
  refresh_token : String
deriving DecidableEq, Repr

/-- Embeds `goauth2.Client`: credentials and token state.  The embedded
`*http.Client` is not part of the data model (it only carries the
transport, which operations receive as a `Transport` argument). -/
structure Client where
  clientID : String
  clientSecret : String
  accessToken : String
  accessTokenExpire : Int
  refreshToken : String
  scope : String
deriving DecidableEq, Repr

/-- Embeds `goauth2.NewClient`: fresh client with zero-valued token state. -/
def NewClient (clientID : String) (clientSecret : String) : Client :=
  { clientID := clientID
    clientSecret := clientSecret
    accessToken := ""
    accessTokenExpire := 0
    refreshToken := ""
    scope := "" }

/-- Accessor `goauth2.Client.GetRefreshToken`. -/
def Client.GetRefreshToken (c : Client) : String :=
  c.refreshToken

/-- Accessor `goauth2.Client.GetAccessToken`. -/
def Client.GetAccessToken (c : Client) : String :=
  c.accessToken

/-- Embeds `goauth2.Client.WithAccessToken`. -/
def Client.WithAccessToken (c : Client) (accessToken : String) : Client :=
  { c with accessToken := accessToken }

/-- Embeds `goauth2.Client.WithScope`. -/
def Client.WithScope (c : Client) (scope : String) : Client :=
  { c with scope := scope }

/-- Embeds `goauth2.Client.WithScopes`: appends each scope followed by `"&"` to a
builder, then stores `s[:len(s)-1]`.  The final byte is always the ASCII
`'&'` just appended, so Go's byte slicing coincides with dropping the last
character; with no scopes the builder is empty and `len(s)-1 = -1` is an
out-of-bounds slice index, a runtime panic, modelled as `none`. -/
def Client.WithScopes (c : Client) (scopes : List String) : Option Client :=
  let s : List Char := (scopes.map (fun scope => scope.data ++ ['&'])).flatten
  if s.length = 0 then none
  else some { c with scope := String.mk s.dropLast }

/-- Constant `goauth2.oauthURI`. -/
def oauthURI : String := "https://accounts.google.com/o/oauth2/v2/auth"

/-- Constant `goauth2.redirectURI` (fixed for desktop app). -/
def redirectURI : String := "urn:ietf:wg:oauth:2.0:oob"

/-- Constant `goauth2.responseType` (fixed for desktop app). -/
def responseType : String := "code"

/-- Constant `goauth2.accessType` (fixed for desktop app). -/
def accessType : String := "offline"

/-- Embeds `goauth2.Client.GetOAuthURI`: the authorization URL, built by plain
string concatenation of the builder writes, in order.  Note the `"?"`
immediately followed by `"&client_id="`, and that `c.clientID` and
`c.scope` are inserted verbatim, with no percent-encoding. -/
def Client.GetOAuthURI (c : Client) : String :=
  oauthURI ++ "?" ++ "&client_id=" ++ c.clientID
    ++ "&redirect_uri=" ++ redirectURI
    ++ "&scope=" ++ c.scope
    ++ "&access_type=" ++ accessType
    ++ "&response_type=" ++ responseType

/-- Semantics of `json.Unmarshal` of a body into a fresh `AuthorizationResponse`
struct: a malformed body is an error; a JSON `null` leaves the zero
value; an object decodes field by field (unknown keys ignored, absent
keys left at their zero value); any other document is a type error. -/
def unmarshalAuthResponse (body : ResponseBody) : Option AuthorizationResponse :=
  match body with
  | ResponseBody.malformed => none
  | ResponseBody.parsed Json.null =>
    some { access_token := "", id_token := "", expires_in := 0,
           token_type := "", refresh_token := "" }
  | ResponseBody.parsed (Json.obj fields) =>
    match decodeStrField fields "access_token", decodeStrField fields "id_token",
        decodeInt64Field fields "expires_in", decodeStrField fields "token_type",
        decodeStrField fields "refresh_token" with
    | some accessToken, some idToken, some expiresIn, some tokenType,
      some refreshToken =>
      some { access_token := accessToken, id_token := idToken,
             expires_in := expiresIn, token_type := tokenType,
             refresh_token := refreshToken }
    | _, _, _, _, _ => none
  | ResponseBody.parsed _ => none

/-- Embeds `goauth2.Client.Authorization`: exchanges an authorization code.
On a transport failure or a body `json.Unmarshal` rejects, the state is
returned unchanged with the corresponding error; on a decoded response
all three token fields are overwritten unconditionally from it. -/
def Client.Authorization (c : Client) (authorizationCode : String) (t : Transport) :
    Client × Except GError Unit :=
  let _ := authorizationCode
  match t with
  | Transport.netFail => (c, Except.error GError.NetworkError)
  | Transport.respond _ body =>
    match unmarshalAuthResponse body with
    | none => (c, Except.error GError.ProtocolError)
    | some r =>
      ({ c with accessToken := r.access_token,
                accessTokenExpire := r.expires_in,
                refreshToken := r.refresh_token },
       Except.ok ())

/-- Embeds `goauth2.Client.Refresh`: the first statement stores the argument in
`c.refreshToken`, before the request is made.  After a decoded response,
the access token and its expiry are overwritten only when the response's
`access_token` is non-empty, and the refresh token only when the
response's `refresh_token` is non-empty. -/
def Client.Refresh (c : Client) (refreshToken : String) (t : Transport) :
    Client × Except GError Unit :=
  let c0 := { c with refreshToken := refreshToken }
  match t with
  | Transport.netFail => (c0, Except.error GError.NetworkError)
  | Transport.respond _ body =>
    match unmarshalAuthResponse body with
    | none => (c0, Except.error GError.ProtocolError)
    | some r =>
      let c1 :=
        if r.access_token ≠ "" then
          { c0 with accessToken := r.access_token,
                    accessTokenExpire := r.expires_in }
        else c0
      let c2 :=
        if r.refresh_token ≠ "" then { c1 with refreshToken := r.refresh_token }
        else c1
      (c2, Except.ok ())

end goauth2

/-- Lowercase hex digit, used by the JSON encoder's control-character
escapes. -/
def hexDigit (n : Nat) : Char :=
  if n < 10 then Char.ofNat ('0'.toNat + n) else Char.ofNat ('a'.toNat + (n - 10))

/-- Escaping of one character inside a JSON string literal, as produced
by Go's `encoding/json` encoder (HTML-escaping on, its default for
`json.Marshal`). -/
def escapeChar (c : Char) : String :=
  if c = '"' then "\\\""
  else if c = '\\' then "\\\\"
  else if c = '\n' then "\\n"
  else if c = '\r' then "\\r"
  else if c = '\t' then "\\t"
  else if c = '<' then "\\u003c"
  else if c = '>' then "\\u003e"
  else if c = '&' then "\\u0026"
  else if c.toNat < 0x20 then
    "\\u00" ++ String.mk [hexDigit (c.toNat / 16), hexDigit (c.toNat % 16)]
  else if c.toNat = 0x2028 then "\\u2028"
  else if c.toNat = 0x2029 then "\\u2029"
  else String.mk [c]

/-- A JSON string literal with its quotes. -/
def quoteJSONString (s : String) : String :=
  "\"" ++ String.join (s.data.map escapeChar) ++ "\""

mutual

/-- Compact serialization of a JSON value, as `json.Marshal` produces it.
The non-integral number branch is unreachable for the request bodies this
development renders (every numeric field of the request types is a Go
`int`). -/
def render : Json → String
  | Json.null => "null"
  | Json.bool true => "true"
  | Json.bool false => "false"
  | Json.num q => if q.den = 1 then toString q.num else toString q
  | Json.str s => quoteJSONString s
  | Json.arr elems => "[" ++ renderElems elems ++ "]"
  | Json.obj fields => "\x7b" ++ renderFields fields ++ "\x7d"

/-- Comma-separated rendering of array elements. -/
def renderElems : List Json → String
  | [] => ""
  | [x] => render x
  | x :: y :: rest => render x ++ "," ++ renderElems (y :: rest)

/-- Comma-separated rendering of object fields. -/
def renderFields : List (String × Json) → String
  | [] => ""
  | [(k, v)] => quoteJSONString k ++ ":" ++ render v
  | (k, v) :: f :: rest =>
    quoteJSONString k ++ ":" ++ render v ++ "," ++ renderFields (f :: rest)

end

/-- Worker for `canonicalMIMEHeaderKey`: the first character of the key
and each character following a dash is uppercased, every other one
lowercased. -/
def canonicalChars : Bool → List Char → List Char
  | _, [] => []
  | upper, c :: rest =>
    (if upper then c.toUpper else c.toLower) :: canonicalChars (c = '-') rest

/-- Semantics of `textproto.CanonicalMIMEHeaderKey`, applied by `http.Header.Set` to
every key the code sets (all of which consist of valid header
characters, where Go performs exactly this canonicalization). -/
def canonicalMIMEHeaderKey (s : String) : String :=
  String.mk (canonicalChars true s.data)

namespace gclient

/-- Constant `gclient.ContentTypeHeader`. -/
def ContentTypeHeader : String := "Content-type"

/-- Constant `gclient.ContentTypeJSON`. -/
def ContentTypeJSON : String := "application/json"

/-- Constant `gclient.ContentTypeForm`. -/
def ContentTypeForm : String := "application/x-www-form-urlencoded"

/-- Constant `gclient.AuthorizationHeader`. -/
def AuthorizationHeader : String := "Authorization"

/-- The format string `gclient.AuthorizationParam` is `"Bearer %s"`;
`fmt.Sprintf` substitutes the token for the verb. -/
def AuthorizationParam (token : String) : String := "Bearer " ++ token

end gclient

/-- A wire HTTP request, as the code assembles it: method, full URL, the
header pairs it sets (after `Header.Set` canonicalization), and the body
bytes. -/
structure HttpRequest where
  method : String
  url : String
  headers : List (String × String)
  body : String
deriving DecidableEq, Repr

namespace gphoto

/-- Constant `gphoto.baseURL`. -/
def baseURL : String := "https://photoslibrary.googleapis.com/v1/"

/-- Constant `gphoto.mediaItemsSearchEndpoint`. -/
def mediaItemsSearchEndpoint : String := "mediaItems:search"

/-- Constant `gphoto.ScopeLibraryReadOnly`. -/
def ScopeLibraryReadOnly : String := "https://www.googleapis.com/auth/photoslibrary.readonly"

/-- Embeds `gphoto.ContentCategory` (a string type). -/
abbrev ContentCategory := String

/-- Embeds `gphoto.MediaType` (a string type). -/
abbrev MediaType := String

/-- Embeds `gphoto.Feature` (a string type). -/
abbrev Feature := String

/-- Embeds `gphoto.VideoProcessingStatus` (a string type). -/
abbrev VideoProcessingStatus := String

/-- Embeds `gphoto.PagerRequest` (embedded in `MediaItemsSearchRequest`; its
fields are inlined by the JSON encoder). -/
structure PagerRequest where
  pageSize : String
  pageToken : String
deriving DecidableEq, Repr

/-- Embeds `gphoto.PagerResponse` (embedded in `MediaItemsSearchResponse`). -/
structure PagerResponse where
  nextPageToken : String
deriving DecidableEq, Repr

/-- Embeds `gphoto.Date`; the Go fields are `int`. -/
structure Date where
  year : Int
  month : Int
  day : Int
deriving DecidableEq, Repr

/-- Embeds `gphoto.DateRange`; the Go fields are `*Date` pointers. -/
structure DateRange where
  startDate : Option Date
  endDate : Option Date
deriving DecidableEq, Repr

/-- Embeds `gphoto.DateFilter`; the Go slices hold `*Date` / `*DateRange`
pointers, so elements can be nil. -/
structure DateFilter where
  dates : List (Option Date)
  ranges : List (Option DateRange)
deriving DecidableEq, Repr

/-- Embeds `gphoto.ContentFilter`. -/
structure ContentFilter where
  includedContentCategories : List ContentCategory
  excludedContentCategories : List ContentCategory
deriving DecidableEq, Repr

/-- Embeds `gphoto.MediaTypeFilter`. -/
structure MediaTypeFilter where
  mediaTypes : List MediaType
deriving DecidableEq, Repr

/-- Embeds `gphoto.FeatureFilter`. -/
structure FeatureFilter where
  includedFeatures : List Feature
deriving DecidableEq, Repr

/-- Embeds `gphoto.Filters`; the four filter fields are pointers in Go. -/
structure Filters where
  dateFilter : Option DateFilter
  contentFilter : Option ContentFilter
  mediaTypeFilter : Option MediaTypeFilter
  featureFilter : Option FeatureFilter
  includeArchivedMedia : Bool
  excludeNonAppCreatedData : Bool
deriving DecidableEq, Repr

/-- Embeds `gphoto.MediaItemsSearchRequest`: embedded `PagerRequest`, optional
album id, optional filter tree. -/
structure MediaItemsSearchRequest where
  pager : PagerRequest
  albumID : String
  filters : Option Filters
deriving DecidableEq, Repr

/-- Embeds `gphoto.Photo`; the numeric fields are Go `float64`, modelled as the
rational value the JSON number carried. -/
structure Photo where
  cameraMake : String
  cameraModel : String
  focalLength : Rat
  apertureFNumber : Rat
  isoEquivalent : Rat
  exposureTime : String
deriving DecidableEq, Repr

/-- Embeds `gphoto.Video`. -/
structure Video where
  cameraMake : String
  cameraModel : String
  fps : Rat
  status : VideoProcessingStatus
deriving DecidableEq, Repr

/-- Embeds `gphoto.MediaMetadata`. -/
structure MediaMetadata where
  creationTime : String
  width : String
  height : String
  photo : Option Photo
  video : Option Video
deriving DecidableEq, Repr

/-- Embeds `gphoto.ContributorInfo`. -/
structure ContributorInfo where
  profilePictureBaseURL : String
  displayName : String
deriving DecidableEq, Repr

/-- Embeds `gphoto.MediaItem`. -/
structure MediaItem where
  id : String
  description : String
  productURL : String
  baseURL : String
  mimeType : String
  mediaMetadata : Option MediaMetadata
  contributorInfo : Option ContributorInfo
  filename : String
deriving DecidableEq, Repr

/-- Embeds `gphoto.MediaItemsSearchResponse`: embedded `PagerResponse` plus the
`[]*MediaItem` slice (elements can be nil). -/
structure MediaItemsSearchResponse where
  pager : PagerResponse
  mediaItems : List (Option MediaItem)
deriving DecidableEq, Repr

/-- The Go zero value `var response MediaItemsSearchResponse`. -/
def MediaItemsSearchResponse.zero : MediaItemsSearchResponse :=
  { pager := { nextPageToken := "" }, mediaItems := [] }

/-- One field of a JSON object under `omitempty`: kept only when the Go
value is not the empty value for its type. -/
def optField (key : String) (keep : Bool) (v : Json) : List (String × Json) :=
  if keep then [(key, v)] else []

/-- Semantics of `json.Marshal` of a `Date`: `int` fields with `omitempty` are
omitted when zero. -/
def encodeDate (d : Date) : Json :=
  Json.obj
    (optField "year" (d.year != 0) (Json.num (d.year : Rat)) ++
     optField "month" (d.month != 0) (Json.num (d.month : Rat)) ++
     optField "day" (d.day != 0) (Json.num (d.day : Rat)))

/-- Marshal of a `*Date` array element: a nil pointer encodes as
`null`. -/
def encodeDatePtr : Option Date → Json
  | none => Json.null
  | some d => encodeDate d

/-- Semantics of `json.Marshal` of a `DateRange`: nil pointer fields with `omitempty`
are omitted. -/
def encodeDateRange (r : DateRange) : Json :=
  Json.obj
    ((match r.startDate with | none => [] | some d => [("startDate", encodeDate d)]) ++
     (match r.endDate with | none => [] | some d => [("endDate", encodeDate d)]))

/-- Marshal of a `*DateRange` array element. -/
def encodeDateRangePtr : Option DateRange → Json
  | none => Json.null
  | some r => encodeDateRange r

/-- Semantics of `json.Marshal` of a `DateFilter`: slices with `omitempty` are
omitted when their length is zero. -/
def encodeDateFilter (f : DateFilter) : Json :=
  Json.obj
    (optField "dates" (!f.dates.isEmpty) (Json.arr (f.dates.map encodeDatePtr)) ++
     optField "ranges" (!f.ranges.isEmpty) (Json.arr (f.ranges.map encodeDateRangePtr)))

/-- Semantics of `json.Marshal` of a `ContentFilter`. -/
def encodeContentFilter (f : ContentFilter) : Json :=
  Json.obj
    (optField "includedContentCategories" (!f.includedContentCategories.isEmpty)
       (Json.arr (f.includedContentCategories.map Json.str)) ++
     optField "excludedContentCategories" (!f.excludedContentCategories.isEmpty)
       (Json.arr (f.excludedContentCategories.map Json.str)))

/-- Semantics of `json.Marshal` of a `MediaTypeFilter`. -/
def encodeMediaTypeFilter (f : MediaTypeFilter) : Json :=
  Json.obj
    (optField "mediaTypes" (!f.mediaTypes.isEmpty)
       (Json.arr (f.mediaTypes.map Json.str)))

/-- Semantics of `json.Marshal` of a `FeatureFilter`. -/
def encodeFeatureFilter (f : FeatureFilter) : Json :=
  Json.obj
    (optField "includedFeatures" (!f.includedFeatures.isEmpty)
       (Json.arr (f.includedFeatures.map Json.str)))

/-- Semantics of `json.Marshal` of a `Filters` value: pointer fields omitted when
nil, `bool` fields with `omitempty` omitted when false. -/
def encodeFilters (f : Filters) : Json :=
  Json.obj
    ((match f.dateFilter with
      | none => [] | some df => [("dateFilter", encodeDateFilter df)]) ++
     (match f.contentFilter with
      | none => [] | some cf => [("contentFilter", encodeContentFilter cf)]) ++
     (match f.mediaTypeFilter with
      | none => [] | some mf => [("mediaTypeFilter", encodeMediaTypeFilter mf)]) ++
     (match f.featureFilter with
      | none => [] | some ff => [("featureFilter", encodeFeatureFilter ff)]) ++
     optField "includeArchivedMedia" f.includeArchivedMedia
       (Json.bool f.includeArchivedMedia) ++
     optField "excludeNonAppCreatedData" f.excludeNonAppCreatedData
       (Json.bool f.excludeNonAppCreatedData))

/-- The inlined fields contributed by the embedded `PagerRequest`:
`string` fields with `omitempty` omitted when empty. -/
def encodePagerRequestFields (p : PagerRequest) : List (String × Json) :=
  optField "pageSize" (p.pageSize != "") (Json.str p.pageSize) ++
  optField "pageToken" (p.pageToken != "") (Json.str p.pageToken)

/-- Semantics of `json.Marshal` of a `MediaItemsSearchRequest`: embedded pager fields
first (their declaration position), then `albumId` and `filters`, each
under `omitempty`. -/
def encodeMediaItemsSearchRequest (r : MediaItemsSearchRequest) : Json :=
  Json.obj
    (encodePagerRequestFields r.pager ++
     optField "albumId" (r.albumID != "") (Json.str r.albumID) ++
     (match r.filters with
      | none => [] | some f => [("filters", encodeFilters f)]))

/-- The keys of a JSON object (of the top-level value, when it is an
object). -/
def objKeys : Json → List String
  | Json.obj fields => fields.map Prod.fst
  | _ => []

/-- Decode a `float64` struct field: absent and `null` leave the zero
value, a number decodes to its value, anything else is an error. -/
def decodeRatField (fields : List (String × Json)) (key : String) : Option Rat :=
  match lookupLast fields key with
  | none => some 0
  | some (Json.num q) => some q
  | some Json.null => some 0
  | some _ => none

/-- Decode of a JSON object into a `Photo`. -/
def decodePhoto (fields : List (String × Json)) : Option Photo := do
  let cameraMake ← decodeStrField fields "cameraMake"
  let cameraModel ← decodeStrField fields "cameraModel"
  let focalLength ← decodeRatField fields "focalLength"
  let apertureFNumber ← decodeRatField fields "apertureFNumber"
  let isoEquivalent ← decodeRatField fields "isoEquivalent"
  let exposureTime ← decodeStrField fields "exposureTime"
  some { cameraMake := cameraMake, cameraModel := cameraModel,
         focalLength := focalLength, apertureFNumber := apertureFNumber,
         isoEquivalent := isoEquivalent, exposureTime := exposureTime }

/-- Decode of a JSON object into a `Video`. -/
def decodeVideo (fields : List (String × Json)) : Option Video := do
  let cameraMake ← decodeStrField fields "cameraMake"
  let cameraModel ← decodeStrField fields "cameraModel"
  let fps ← decodeRatField fields "fps"
  let status ← decodeStrField fields "status"
  some { cameraMake := cameraMake, cameraModel := cameraModel,
         fps := fps, status := status }

/-- Decode of a `*Photo` struct field: absent and `null` give a nil
pointer, an object decodes into a fresh value. -/
def decodePhotoPtr (fields : List (String × Json)) (key : String) :
    Option (Option Photo) :=
  match lookupLast fields key with
  | none => some none
  | some Json.null => some none
  | some (Json.obj sub) => (decodePhoto sub).map some
  | some _ => none

/-- Decode of a `*Video` struct field. -/
def decodeVideoPtr (fields : List (String × Json)) (key : String) :
    Option (Option Video) :=
  match lookupLast fields key with
  | none => some none
  | some Json.null => some none
  | some (Json.obj sub) => (decodeVideo sub).map some
  | some _ => none

/-- Decode of a JSON object into a `MediaMetadata`. -/
def decodeMediaMetadata (fields : List (String × Json)) : Option MediaMetadata := do
  let creationTime ← decodeStrField fields "creationTime"
  let width ← decodeStrField fields "width"
  let height ← decodeStrField fields "height"
  let photo ← decodePhotoPtr fields "photo"
  let video ← decodeVideoPtr fields "video"
  some { creationTime := creationTime, width := width, height := height,
         photo := photo, video := video }

/-- Decode of a `*MediaMetadata` struct field. -/
def decodeMediaMetadataPtr (fields : List (String × Json)) (key : String) :
    Option (Option MediaMetadata) :=
  match lookupLast fields key with
  | none => some none
  | some Json.null => some none
  | some (Json.obj sub) => (decodeMediaMetadata sub).map some
  | some _ => none

/-- Decode of a JSON object into a `ContributorInfo`. -/
def decodeContributorInfo (fields : List (String × Json)) : Option ContributorInfo := do
  let profilePictureBaseURL ← decodeStrField fields "profilePictureBaseUrl"
  let displayName ← decodeStrField fields "displayName"
  some { profilePictureBaseURL := profilePictureBaseURL, displayName := displayName }

/-- Decode of a `*ContributorInfo` struct field. -/
def decodeContributorInfoPtr (fields : List (String × Json)) (key : String) :
    Option (Option ContributorInfo) :=
  match lookupLast fields key with
  | none => some none
  | some Json.null => some none
  | some (Json.obj sub) => (decodeContributorInfo sub).map some
  | some _ => none

/-- Decode of a JSON object into a `MediaItem`. -/
def decodeMediaItem (fields : List (String × Json)) : Option MediaItem := do
  let id ← decodeStrField fields "id"
  let description ← decodeStrField fields "description"
  let productURL ← decodeStrField fields "productUrl"
  let baseURL ← decodeStrField fields "baseUrl"
  let mimeType ← decodeStrField fields "mimeType"
  let mediaMetadata ← decodeMediaMetadataPtr fields "mediaMetadata"
  let contributorInfo ← decodeContributorInfoPtr fields "contributorInfo"
  let filename ← decodeStrField fields "filename"
  some { id := id, description := description, productURL := productURL,
         baseURL := baseURL, mimeType := mimeType,
         mediaMetadata := mediaMetadata, contributorInfo := contributorInfo,
         filename := filename }

/-- Decode of one element of the `[]*MediaItem` slice: `null` gives a
nil pointer. -/
def decodeMediaItemElem (j : Json) : Option (Option MediaItem) :=
  match j with
  | Json.null => some none
  | Json.obj fields => (decodeMediaItem fields).map some
  | _ => none

/-- Decode of the `mediaItems` field: absent and `null` leave the nil
slice, an array decodes element-wise in order. -/
def decodeMediaItemsField (fields : List (String × Json)) :
    Option (List (Option MediaItem)) :=
  match lookupLast fields "mediaItems" with
  | none => some []
  | some Json.null => some []
  | some (Json.arr elems) => elems.mapM decodeMediaItemElem
  | some _ => none

/-- Decode of a JSON object into a `MediaItemsSearchResponse`. -/
def decodeMediaItemsSearchResponse (fields : List (String × Json)) :
    Option MediaItemsSearchResponse :=
  match decodeStrField fields "nextPageToken", decodeMediaItemsField fields with
  | some nextPageToken, some mediaItems =>
    some { pager := { nextPageToken := nextPageToken }, mediaItems := mediaItems }
  | _, _ => none

/-- Semantics of `json.Unmarshal` of a response body into a fresh
`MediaItemsSearchResponse`: malformed is an error, `null` leaves the
zero value, an object decodes field-wise, anything else is a type
error. -/
def unmarshalSearchResponse (body : ResponseBody) : Option MediaItemsSearchResponse :=
  match body with
  | ResponseBody.malformed => none
  | ResponseBody.parsed Json.null => some MediaItemsSearchResponse.zero
  | ResponseBody.parsed (Json.obj fields) => decodeMediaItemsSearchResponse fields
  | ResponseBody.parsed _ => none

/-- Embeds `gphoto.Client`: the bearer token it was constructed with.  The
`*http.Client` only carries the transport, which operations receive as a
`Transport` argument. -/
structure Client where
  token : String
deriving DecidableEq, Repr

/-- Embeds `gphoto.NewClient` (the `*http.Client` argument is the transport). -/
def NewClient (token : String) : Client :=
  { token := token }

/-- Embeds `gphoto.Client.request`: marshals the request (here received already
encoded, as `json.Marshal` produces it), builds a POST to
`baseURL+endpoint` with the `Authorization` and `Content-Type` headers
(keys canonicalized by `Header.Set`), and unmarshals the response body
into the given shape.  The response's status code is never inspected. -/
def Client.request {β : Type} (c : Client) (endpoint : String) (reqJson : Json)
    (unmarshalResp : ResponseBody → Option β) (t : Transport) :
    HttpRequest × Except GError β :=
  let wire : HttpRequest :=
    { method := "POST"
      url := baseURL ++ endpoint
      headers :=
        [(canonicalMIMEHeaderKey gclient.AuthorizationHeader,
          gclient.AuthorizationParam c.token),
         (canonicalMIMEHeaderKey gclient.ContentTypeHeader,
          gclient.ContentTypeJSON)]
      body := render reqJson }
  (wire,
    match t with
    | Transport.netFail => Except.error GError.NetworkError
    | Transport.respond _ body =>
      match unmarshalResp body with
      | none => Except.error GError.ProtocolError
      | some r => Except.ok r)

/-- Embeds `gphoto.Client.MediaItemsSearch`: declares a zero-valued response,
runs `request` against the search endpoint, and returns the address of
the response — never nil — together with the error. -/
def Client.MediaItemsSearch (c : Client) (req : MediaItemsSearchRequest)
    (t : Transport) :
    HttpRequest × Option MediaItemsSearchResponse × Option GError :=
  let result :=
    c.request mediaItemsSearchEndpoint (encodeMediaItemsSearchRequest req)
      unmarshalSearchResponse t
  match result.2 with
  | Except.ok r => (result.1, some r, none)
  | Except.error e => (result.1, some MediaItemsSearchResponse.zero, some e)

end gphoto

/-!
Formalization of the spec's reading of a URL's query string ("Authorization
URL query parameters, in this exact set"): the query is everything after
the first `?` (up to a `#`, which would start a fragment), parameters are
the non-empty `&`-separated segments, each a name and a value split at the
first `=`.  Empty segments are skipped, as standard query parsers do. -/

/-- Characters after the first `?` of a URL. -/
def dropToQuery : List Char → List Char
  | [] => []
  | c :: cs => if c = '?' then cs else dropToQuery cs

/-- The query string of a URL. -/
def queryOf (u : String) : String :=
  String.mk ((dropToQuery u.data).takeWhile (fun c => c ≠ '#'))

/-- Split at every `&`, keeping empty segments. -/
def splitAmp : List Char → List (List Char)
  | [] => [[]]
  | c :: cs =>
    if c = '&' then [] :: splitAmp cs
    else (splitAmp cs).modifyHead (fun g => c :: g)

/-- Split a segment at its first `=` (name, value); a segment with no
`=` is a name with an empty value. -/
def splitFirstEq : List Char → List Char × List Char
  | [] => ([], [])
  | c :: cs =>
    if c = '=' then ([], cs)
    else
      let p := splitFirstEq cs
      (c :: p.1, p.2)

/-- The parameter list of a query string, in order. -/
def queryParams (q : String) : List (String × String) :=
  (splitAmp q.data).filterMap fun seg =>
    if seg.isEmpty then none
    else some (String.mk (splitFirstEq seg).1, String.mk (splitFirstEq seg).2)

lemma dropToQuery_append {A : List Char} (B : List Char) (h : '?' ∉ A) :
    dropToQuery (A ++ '?' :: B) = B := by
  induction A with
  | nil => simp [dropToQuery]
  | cons a A ih =>
    simp only [List.mem_cons, not_or] at h
    rw [List.cons_append, dropToQuery, if_neg (Ne.symm h.1)]
    exact ih h.2

lemma takeWhile_eq_self {p : Char → Bool} {l : List Char}
    (h : ∀ a ∈ l, p a) : l.takeWhile p = l := by
  induction l with
  | nil => rfl
  | cons a l ih =>
    simp only [List.mem_cons] at h
    simp [List.takeWhile, h a (Or.inl rfl), ih fun b hb => h b (Or.inr hb)]

lemma splitAmp_append {A : List Char} (l : List Char) (h : '&' ∉ A) :
    splitAmp (A ++ l) = (splitAmp l).modifyHead (fun g => A ++ g) := by
  induction A with
  | nil =>
    rw [List.nil_append]
    cases hsp : splitAmp l with
    | nil => rfl
    | cons g gs => rfl
  | cons a A ih =>
    simp only [List.mem_cons, not_or] at h
    rw [List.cons_append, splitAmp, if_neg (Ne.symm h.1), ih h.2]
    cases hsp : splitAmp l with
    | nil => rfl
    | cons g gs => rfl

lemma splitFirstEq_append {A : List Char} (B : List Char) (h : '=' ∉ A) :
    splitFirstEq (A ++ '=' :: B) = (A, B) := by
  induction A with
  | nil => simp [splitFirstEq]
  | cons a A ih =>
    simp only [List.mem_cons, not_or] at h
    rw [List.cons_append, splitFirstEq, if_neg (Ne.symm h.1)]
    simp [ih h.2]

/-- One chunk of a hand-built query: a leading `&`, a name, `=`, a value. -/
def ampChunk (p : List Char × List Char) : List Char :=
  '&' :: (p.1 ++ '=' :: p.2)

lemma splitAmp_chunks (ps : List (List Char × List Char))
    (h : ∀ p ∈ ps, '&' ∉ p.1 ∧ '&' ∉ p.2) :
    splitAmp (ps.map ampChunk).flatten =
      [] :: ps.map (fun p => p.1 ++ '=' :: p.2) := by
  induction ps with
  | nil => simp [splitAmp]
  | cons p ps ih =>
    have hp := h p (List.mem_cons_self p ps)
    have hAmp : '&' ∉ p.1 ++ '=' :: p.2 := by
      simp only [List.mem_append, List.mem_cons, not_or]
      exact ⟨hp.1, by decide, hp.2⟩
    rw [List.map_cons, List.flatten_cons, ampChunk, List.cons_append, splitAmp,
      if_pos rfl, splitAmp_append _ hAmp,
      ih fun q hq => h q (List.mem_cons_of_mem p hq)]
    simp

lemma filterMap_chunk_segments (ps : List (List Char × List Char))
    (h : ∀ p ∈ ps, '=' ∉ p.1) :
    (ps.map (fun p => p.1 ++ '=' :: p.2)).filterMap
        (fun seg => if seg.isEmpty then none
          else some (String.mk (splitFirstEq seg).1, String.mk (splitFirstEq seg).2)) =
      ps.map (fun p => (String.mk p.1, String.mk p.2)) := by
  induction ps with
  | nil => rfl
  | cons p ps ih =>
    have hp := h p (List.mem_cons_self p ps)
    have hne : (p.1 ++ '=' :: p.2).isEmpty = false := by
      cases hl : p.1 <;> rfl
    simp only [List.map_cons, List.filterMap_cons, hne, Bool.false_eq_true,
      if_false, splitFirstEq_append p.2 hp]
    exact congrArg _ (ih fun q hq => h q (List.mem_cons_of_mem p hq))

lemma queryParams_chunks (ps : List (List Char × List Char))
    (h : ∀ p ∈ ps, '&' ∉ p.1 ∧ '=' ∉ p.1 ∧ '&' ∉ p.2) :
    queryParams (String.mk (ps.map ampChunk).flatten) =
      ps.map (fun p => (String.mk p.1, String.mk p.2)) := by
  have hs : splitAmp (ps.map ampChunk).flatten =
      [] :: ps.map (fun p => p.1 ++ '=' :: p.2) :=
    splitAmp_chunks ps fun p hp => ⟨(h p hp).1, (h p hp).2.2⟩
  unfold queryParams
  rw [show (String.mk (ps.map ampChunk).flatten).data =
    (ps.map ampChunk).flatten from rfl, hs, List.filterMap_cons]
  simp only [List.isEmpty_nil, if_true]
  exact filterMap_chunk_segments ps fun p hp => (h p hp).2.1

/-- The string the claim C8 describes: the scope strings joined by a
single ampersand, with no trailing separator. -/
def ampJoin : List String → String
  | [] => ""
  | [s] => s
  | s :: s2 :: rest => s ++ "&" ++ ampJoin (s2 :: rest)

lemma flatten_scopes (scopes : List String) (h : scopes ≠ []) :
    (scopes.map (fun scope => scope.data ++ ['&'])).flatten =
      (ampJoin scopes).data ++ ['&'] := by
  induction scopes with
  | nil => exact absurd rfl h
  | cons s rest ih =>
    cases rest with
    | nil => simp [ampJoin]
    | cons s2 rest2 =>
      have hamp : ("&" : String).data = ['&'] := rfl
      rw [List.map_cons, List.flatten_cons, ih (by simp)]
      rw [show ampJoin (s :: s2 :: rest2) = s ++ "&" ++ ampJoin (s2 :: rest2) from rfl]
      simp [String.data_append, hamp]

/-- C8: for every non-empty list of scope strings, `WithScopes` stores as
the requested scope the scopes concatenated with `&` as separator, with no
trailing separator. -/
theorem c8_withScopes_ampersand_join (c : goauth2.Client) (scopes : List String)
    (h : scopes ≠ []) :
    c.WithScopes scopes = some { c with scope := ampJoin scopes } := by
  simp only [goauth2.Client.WithScopes, flatten_scopes scopes h]
  rw [if_neg (by simp)]
  rw [show ((ampJoin scopes).data ++ ['&']).dropLast = (ampJoin scopes).data by
    simp]

/-- Witness for C8 at a concrete input. -/
theorem c8_witness :
    (["a", "b"] : List String) ≠ [] ∧
    (goauth2.NewClient "i" "s").WithScopes ["a", "b"] =
      some { goauth2.NewClient "i" "s" with scope := ampJoin ["a", "b"] } :=
  ⟨by decide, c8_withScopes_ampersand_join _ _ (by decide)⟩

/-- C9: `WithScopes` with an empty argument list evaluates the slice
expression `s[:len(s)-1]` with `len(s) = 0`, an out-of-bounds index
(runtime panic, modelled as `none`); with any non-empty argument list the
slice is in bounds and the call returns normally. -/
theorem c9_withScopes_empty_panics :
    (∀ c : goauth2.Client, c.WithScopes [] = none) ∧
    (∀ (c : goauth2.Client) (scopes : List String), scopes ≠ [] →
      (c.WithScopes scopes).isSome = true) := by
  constructor
  · intro c; rfl
  · intro c scopes h
    simp only [goauth2.Client.WithScopes, flatten_scopes scopes h]
    rw [if_neg (by simp)]
    rfl

/-- Witness for C9 at a concrete input. -/
theorem c9_witness :
    (goauth2.NewClient "i" "s").WithScopes [] = none ∧
    ((["a"] : List String) ≠ [] ∧
      ((goauth2.NewClient "i" "s").WithScopes ["a"]).isSome = true) :=
  ⟨c9_withScopes_empty_panics.1 _,
   by decide, c9_withScopes_empty_panics.2 _ _ (by decide)⟩

lemma unmarshalAuth_fields (fields : List (String × Json))
    (r : goauth2.AuthorizationResponse)
    (h : goauth2.unmarshalAuthResponse (ResponseBody.parsed (Json.obj fields)) = some r) :
    decodeStrField fields "access_token" = some r.access_token ∧
    decodeStrField fields "refresh_token" = some r.refresh_token := by
  simp only [goauth2.unmarshalAuthResponse] at h
  split at h
  next accessToken idToken expiresIn tokenType refreshToken ha hi he ht hrt =>
    cases h
    exact ⟨ha, hrt⟩
  next => exact absurd h (by simp)

/-- A concrete client holding a stored token state, used to instantiate
theorems about the token operations. -/
def sampleClient : goauth2.Client :=
  { clientID := "i", clientSecret := "s", accessToken := "A1",
    accessTokenExpire := 100, refreshToken := "R1", scope := "" }

/-- C1 as stated is false: `Refresh` stores its refresh-token argument
before issuing the request, so a valid-JSON response missing the
`refresh_token` field still leaves a stored refresh token different from
the one stored before the call whenever the argument differs from it. -/
theorem c1_counterexample :
    ((sampleClient.Refresh "R2"
        (Transport.respond 200 (ResponseBody.parsed (Json.obj [])))).1.refreshToken
      = "R2") ∧
    sampleClient.refreshToken = "R1" ∧ ("R2" : String) ≠ "R1" :=
  ⟨rfl, rfl, by decide⟩

/-- C1 (amended): for a `Refresh` call whose provider response is valid
JSON, a response missing the `access_token` field leaves the stored
access token and its expiry untouched, and a response missing the
`refresh_token` field leaves the stored refresh token equal to the
call's refresh-token argument, which `Refresh` stores unconditionally
before the request — so it is unchanged exactly when the call passes the
currently stored refresh token. -/
theorem c1_refresh_missing_fields (c : goauth2.Client) (rt : String) (s : Nat)
    (fields : List (String × Json)) (r : goauth2.AuthorizationResponse)
    (hdec : goauth2.unmarshalAuthResponse (ResponseBody.parsed (Json.obj fields))
      = some r) :
    (lookupLast fields "access_token" = none →
      (c.Refresh rt (Transport.respond s
          (ResponseBody.parsed (Json.obj fields)))).1.accessToken = c.accessToken ∧
      (c.Refresh rt (Transport.respond s
          (ResponseBody.parsed (Json.obj fields)))).1.accessTokenExpire
        = c.accessTokenExpire) ∧
    (lookupLast fields "refresh_token" = none →
      (c.Refresh rt (Transport.respond s
          (ResponseBody.parsed (Json.obj fields)))).1.refreshToken = rt) := by
  obtain ⟨hacc, href⟩ := unmarshalAuth_fields fields r hdec
  constructor
  · intro hkey
    have ha : r.access_token = "" := by
      simp only [decodeStrField, hkey, Option.some.injEq] at hacc
      exact hacc.symm
    constructor <;>
      · simp only [goauth2.Client.Refresh, hdec, ha]
        simp only [ne_eq, not_true_eq_false, if_false]
        split <;> rfl
  · intro hkey
    have hr : r.refresh_token = "" := by
      simp only [decodeStrField, hkey, Option.some.injEq] at href
      exact href.symm
    simp only [goauth2.Client.Refresh, hdec, hr]
    simp only [ne_eq, not_true_eq_false, if_false]
    split <;> rfl

/-- Witness for the amended C1 at a concrete input. -/
theorem c1_witness :
    goauth2.unmarshalAuthResponse (ResponseBody.parsed (Json.obj [])) =
      some { access_token := "", id_token := "", expires_in := 0,
             token_type := "", refresh_token := "" } ∧
    lookupLast [] "access_token" = none ∧
    lookupLast [] "refresh_token" = none ∧
    ((sampleClient.Refresh "R1" (Transport.respond 200
        (ResponseBody.parsed (Json.obj [])))).1.accessToken = "A1" ∧
     (sampleClient.Refresh "R1" (Transport.respond 200
        (ResponseBody.parsed (Json.obj [])))).1.accessTokenExpire = 100) ∧
    (sampleClient.Refresh "R1" (Transport.respond 200
        (ResponseBody.parsed (Json.obj [])))).1.refreshToken = "R1" :=
  ⟨by decide, rfl, rfl,
   (c1_refresh_missing_fields sampleClient "R1" 200 []
     { access_token := "", id_token := "", expires_in := 0,
       token_type := "", refresh_token := "" } (by decide)).1 rfl,
   (c1_refresh_missing_fields sampleClient "R1" 200 []
     { access_token := "", id_token := "", expires_in := 0,
       token_type := "", refresh_token := "" } (by decide)).2 rfl⟩

/-- C2 as stated is false: a malformed-body refresh does fail with
`ProtocolError`, but the stored state is not exactly what it was before
the call — the refresh token was already overwritten with the call's
argument before the request. -/
theorem c2_counterexample :
    ((sampleClient.Refresh "R2" (Transport.respond 200 ResponseBody.malformed)).2
      = Except.error GError.ProtocolError) ∧
    (sampleClient.Refresh "R2" (Transport.respond 200 ResponseBody.malformed)).1
      ≠ sampleClient :=
  ⟨rfl, by decide⟩

/-- C2 (amended): a `Refresh` whose provider response is an empty or
malformed JSON body fails with `ProtocolError`; the stored access token
and expiry are exactly what they were before the call, and the stored
refresh token equals the call's refresh-token argument (stored before
the request) — hence the whole state is untouched exactly when the call
passes the currently stored refresh token. -/
theorem c2_refresh_malformed (c : goauth2.Client) (rt : String) (s : Nat) :
    c.Refresh rt (Transport.respond s ResponseBody.malformed) =
      ({ c with refreshToken := rt }, Except.error GError.ProtocolError) := rfl

/-- C3: a successful `Authorization` overwrites all three token fields
from the decoded provider response; with the stub response carrying
access token `"A"`, refresh token `"R"` and expiry `3600` the stored
tokens become `"A"` and `"R"`, and with an empty `refresh_token` in the
response the refresh-token accessor returns the empty string. -/
theorem c3_authorization_overwrites (c : goauth2.Client) (code : String) (s : Nat) :
    (∀ (body : ResponseBody) (r : goauth2.AuthorizationResponse),
      goauth2.unmarshalAuthResponse body = some r →
      (c.Authorization code (Transport.respond s body)).1 =
        { c with accessToken := r.access_token,
                 accessTokenExpire := r.expires_in,
                 refreshToken := r.refresh_token }) ∧
    ((c.Authorization code (Transport.respond s (ResponseBody.parsed (Json.obj
        [("access_token", Json.str "A"), ("refresh_token", Json.str "R"),
         ("expires_in", Json.num 3600)])))).1.GetAccessToken = "A" ∧
     (c.Authorization code (Transport.respond s (ResponseBody.parsed (Json.obj
        [("access_token", Json.str "A"), ("refresh_token", Json.str "R"),
         ("expires_in", Json.num 3600)])))).1.GetRefreshToken = "R") ∧
    (c.Authorization code (Transport.respond s (ResponseBody.parsed (Json.obj
        [("access_token", Json.str "A"), ("refresh_token", Json.str ""),
         ("expires_in", Json.num 3600)])))).1.GetRefreshToken = "" := by
  refine ⟨?_, ⟨?_, ?_⟩, ?_⟩
  · intro body r hdec
    simp only [goauth2.Client.Authorization, hdec]
  · rfl
  · rfl
  · rfl

/-- Witness for C3 at a concrete input. -/
theorem c3_witness :
    goauth2.unmarshalAuthResponse (ResponseBody.parsed (Json.obj [])) =
      some { access_token := "", id_token := "", expires_in := 0,
             token_type := "", refresh_token := "" } ∧
    (sampleClient.Authorization "x" (Transport.respond 200
        (ResponseBody.parsed (Json.obj [])))).1 =
      { sampleClient with accessToken := "", accessTokenExpire := 0,
                          refreshToken := "" } :=
  ⟨by decide,
   (c3_authorization_overwrites sampleClient "x" 200).1 _
     { access_token := "", id_token := "", expires_in := 0,
       token_type := "", refresh_token := "" } (by decide)⟩

/-- A concrete search request used to instantiate theorems. -/
def sampleSearchRequest : gphoto.MediaItemsSearchRequest :=
  { pager := { pageSize := "100", pageToken := "" }, albumID := "",
    filters := some
      { dateFilter := none, contentFilter := some
          { includedContentCategories := ["PETS"],
            excludedContentCategories := [] },
        mediaTypeFilter := none, featureFilter := none,
        includeArchivedMedia := false, excludeNonAppCreatedData := false } }

/-- C5: for each of the three operations, the status code of the
provider's response never affects the outcome — the result is the same
function of the body for any two status codes — and a response whose
body decodes into the expected shape is treated as success regardless of
the status code. -/
theorem c5_status_code_ignored :
    (∀ (c : goauth2.Client) (code : String) (s1 s2 : Nat) (body : ResponseBody),
      c.Authorization code (Transport.respond s1 body) =
        c.Authorization code (Transport.respond s2 body)) ∧
    (∀ (c : goauth2.Client) (rt : String) (s1 s2 : Nat) (body : ResponseBody),
      c.Refresh rt (Transport.respond s1 body) =
        c.Refresh rt (Transport.respond s2 body)) ∧
    (∀ (c : gphoto.Client) (req : gphoto.MediaItemsSearchRequest) (s1 s2 : Nat)
        (body : ResponseBody),
      c.MediaItemsSearch req (Transport.respond s1 body) =
        c.MediaItemsSearch req (Transport.respond s2 body)) ∧
    (∀ (c : goauth2.Client) (code : String) (s : Nat) (body : ResponseBody)
        (r : goauth2.AuthorizationResponse),
      goauth2.unmarshalAuthResponse body = some r →
      (c.Authorization code (Transport.respond s body)).2 = Except.ok ()) ∧
    (∀ (c : goauth2.Client) (rt : String) (s : Nat) (body : ResponseBody)
        (r : goauth2.AuthorizationResponse),
      goauth2.unmarshalAuthResponse body = some r →
      (c.Refresh rt (Transport.respond s body)).2 = Except.ok ()) ∧
    (∀ (c : gphoto.Client) (req : gphoto.MediaItemsSearchRequest) (s : Nat)
        (body : ResponseBody) (r : gphoto.MediaItemsSearchResponse),
      gphoto.unmarshalSearchResponse body = some r →
      (c.MediaItemsSearch req (Transport.respond s body)).2.2 = none) := by
  refine ⟨fun c code s1 s2 body => rfl, fun c rt s1 s2 body => rfl,
    fun c req s1 s2 body => rfl, ?_, ?_, ?_⟩
  · intro c code s body r hdec
    simp only [goauth2.Client.Authorization, hdec]
  · intro c rt s body r hdec
    simp only [goauth2.Client.Refresh, hdec]
  · intro c req s body r hdec
    simp only [gphoto.Client.MediaItemsSearch, gphoto.Client.request, hdec]

/-- Witness for C5 at concrete inputs with non-2xx status codes. -/
theorem c5_witness :
    goauth2.unmarshalAuthResponse (ResponseBody.parsed Json.null) =
      some { access_token := "", id_token := "", expires_in := 0,
             token_type := "", refresh_token := "" } ∧
    (sampleClient.Authorization "x" (Transport.respond 404
        (ResponseBody.parsed Json.null))).2 = Except.ok () ∧
    (sampleClient.Refresh "R1" (Transport.respond 500
        (ResponseBody.parsed Json.null))).2 = Except.ok () ∧
    gphoto.unmarshalSearchResponse (ResponseBody.parsed Json.null) =
      some gphoto.MediaItemsSearchResponse.zero ∧
    ((gphoto.NewClient "T").MediaItemsSearch sampleSearchRequest
        (Transport.respond 404 (ResponseBody.parsed Json.null))).2.2 = none :=
  ⟨by decide,
   c5_status_code_ignored.2.2.2.1 sampleClient "x" 404 _
     { access_token := "", id_token := "", expires_in := 0,
       token_type := "", refresh_token := "" } (by decide),
   c5_status_code_ignored.2.2.2.2.1 sampleClient "R1" 500 _
     { access_token := "", id_token := "", expires_in := 0,
       token_type := "", refresh_token := "" } (by decide),
   by decide,
   c5_status_code_ignored.2.2.2.2.2 (gphoto.NewClient "T") sampleSearchRequest
     404 _ gphoto.MediaItemsSearchResponse.zero (by decide)⟩

/-- C10: `MediaItemsSearch` always returns the address of its response
variable — never nil — also when it returns an error; on a transport
failure or a malformed body the returned response is the zero value. -/
theorem c10_search_response_never_nil (c : gphoto.Client)
    (req : gphoto.MediaItemsSearchRequest) :
    (∀ t : Transport, ((c.MediaItemsSearch req t).2.1.isSome = true)) ∧
    ((c.MediaItemsSearch req Transport.netFail).2.1 =
      some gphoto.MediaItemsSearchResponse.zero) ∧
    (∀ s : Nat,
      (c.MediaItemsSearch req (Transport.respond s ResponseBody.malformed)).2.1 =
        some gphoto.MediaItemsSearchResponse.zero) := by
  refine ⟨?_, rfl, fun s => rfl⟩
  intro t
  cases t with
  | netFail => rfl
  | respond s body =>
    simp only [gphoto.Client.MediaItemsSearch, gphoto.Client.request]
    cases h : gphoto.unmarshalSearchResponse body <;> simp

lemma decodeSearch_fields (fields : List (String × Json))
    (r : gphoto.MediaItemsSearchResponse)
    (h : gphoto.decodeMediaItemsSearchResponse fields = some r) :
    decodeStrField fields "nextPageToken" = some r.pager.nextPageToken ∧
    gphoto.decodeMediaItemsField fields = some r.mediaItems := by
  simp only [gphoto.decodeMediaItemsSearchResponse] at h
  split at h
  next tok items htok hitems =>
    cases h
    exact ⟨htok, hitems⟩
  next => exact absurd h (by simp)

/-- C7: a decoded search response defaults absent fields to their zero
value (`nextPageToken` to the empty string, `mediaItems` to the empty
slice); a concrete body carrying a `nextPageToken` and two media items
decodes to exactly that token and the two items in input order. -/
theorem c7_search_decode_defaults :
    (∀ (fields : List (String × Json)) (r : gphoto.MediaItemsSearchResponse),
      gphoto.decodeMediaItemsSearchResponse fields = some r →
      (lookupLast fields "nextPageToken" = none → r.pager.nextPageToken = "") ∧
      (lookupLast fields "mediaItems" = none → r.mediaItems = [])) ∧
    (∀ (c : gphoto.Client) (req : gphoto.MediaItemsSearchRequest) (s : Nat),
      (c.MediaItemsSearch req (Transport.respond s (ResponseBody.parsed (Json.obj
        [("nextPageToken", Json.str "T"),
         ("mediaItems", Json.arr
           [Json.obj [("id", Json.str "1"), ("productUrl", Json.str "u1")],
            Json.obj [("id", Json.str "2"), ("productUrl", Json.str "u2")]])])))).2 =
        (some { pager := { nextPageToken := "T" },
                mediaItems :=
                  [some { id := "1", description := "", productURL := "u1",
                          baseURL := "", mimeType := "", mediaMetadata := none,
                          contributorInfo := none, filename := "" },
                   some { id := "2", description := "", productURL := "u2",
                          baseURL := "", mimeType := "", mediaMetadata := none,
                          contributorInfo := none, filename := "" }] }, none)) := by
  constructor
  · intro fields r hdec
    obtain ⟨htok, hitems⟩ := decodeSearch_fields fields r hdec
    constructor
    · intro hkey
      simp only [decodeStrField, hkey, Option.some.injEq] at htok
      exact htok.symm
    · intro hkey
      simp only [gphoto.decodeMediaItemsField, hkey, Option.some.injEq] at hitems
      exact hitems.symm
  · intro c req s
    rfl

/-- Witness for the universally quantified part of C7 at a concrete
input. -/
theorem c7_witness :
    gphoto.decodeMediaItemsSearchResponse [] =
      some gphoto.MediaItemsSearchResponse.zero ∧
    lookupLast [] "nextPageToken" = none ∧
    lookupLast [] "mediaItems" = none ∧
    (gphoto.MediaItemsSearchResponse.zero.pager.nextPageToken = "" ∧
     gphoto.MediaItemsSearchResponse.zero.mediaItems = []) :=
  ⟨by decide, rfl, rfl,
   (c7_search_decode_defaults.1 [] gphoto.MediaItemsSearchResponse.zero
     (by decide)).1 rfl,
   (c7_search_decode_defaults.1 [] gphoto.MediaItemsSearchResponse.zero
     (by decide)).2 rfl⟩

/-- C6: the wire request of `MediaItemsSearch` is a POST of the
request's JSON serialization to the fixed path under the base URL with
bearer-token and JSON content-type headers, and the serialized object
carries an optional field exactly when the corresponding request value
is non-empty (absent `albumId`, `filters`, pager fields when unset, and
absent optional fields inside `filters`, all keys lowerCamelCase). -/
theorem c6_search_wire_request (c : gphoto.Client)
    (req : gphoto.MediaItemsSearchRequest) (t : Transport) :
    ((c.MediaItemsSearch req t).1.method = "POST" ∧
     (c.MediaItemsSearch req t).1.url =
       "https://photoslibrary.googleapis.com/v1/mediaItems:search" ∧
     (c.MediaItemsSearch req t).1.headers =
       [("Authorization", "Bearer " ++ c.token),
        ("Content-Type", "application/json")] ∧
     (c.MediaItemsSearch req t).1.body =
       render (gphoto.encodeMediaItemsSearchRequest req)) ∧
    (("pageSize" ∈ gphoto.objKeys (gphoto.encodeMediaItemsSearchRequest req) ↔
        req.pager.pageSize ≠ "") ∧
     ("pageToken" ∈ gphoto.objKeys (gphoto.encodeMediaItemsSearchRequest req) ↔
        req.pager.pageToken ≠ "") ∧
     ("albumId" ∈ gphoto.objKeys (gphoto.encodeMediaItemsSearchRequest req) ↔
        req.albumID ≠ "") ∧
     ("filters" ∈ gphoto.objKeys (gphoto.encodeMediaItemsSearchRequest req) ↔
        req.filters.isSome)) ∧
    (∀ f : gphoto.Filters, req.filters = some f →
      (("dateFilter" ∈ gphoto.objKeys (gphoto.encodeFilters f) ↔
          f.dateFilter.isSome) ∧
       ("contentFilter" ∈ gphoto.objKeys (gphoto.encodeFilters f) ↔
          f.contentFilter.isSome) ∧
       ("mediaTypeFilter" ∈ gphoto.objKeys (gphoto.encodeFilters f) ↔
          f.mediaTypeFilter.isSome) ∧
       ("featureFilter" ∈ gphoto.objKeys (gphoto.encodeFilters f) ↔
          f.featureFilter.isSome) ∧
       ("includeArchivedMedia" ∈ gphoto.objKeys (gphoto.encodeFilters f) ↔
          f.includeArchivedMedia = true) ∧
       ("excludeNonAppCreatedData" ∈ gphoto.objKeys (gphoto.encodeFilters f) ↔
          f.excludeNonAppCreatedData = true))) := by
  refine ⟨?_, ?_, ?_⟩
  · simp only [gphoto.Client.MediaItemsSearch, gphoto.Client.request]
    split <;> exact ⟨rfl, rfl, rfl, rfl⟩
  · obtain ⟨⟨ps, pt⟩, alb, fil⟩ := req
    by_cases h1 : ps = "" <;> by_cases h2 : pt = "" <;> by_cases h3 : alb = "" <;>
      cases fil <;>
        simp [gphoto.encodeMediaItemsSearchRequest, gphoto.encodePagerRequestFields,
          gphoto.optField, gphoto.objKeys, h1, h2, h3]
  · intro f hf
    obtain ⟨df, cf, mf, ff, iam, en⟩ := f
    cases df <;> cases cf <;> cases mf <;> cases ff <;> cases iam <;> cases en <;>
      simp [gphoto.encodeFilters, gphoto.optField, gphoto.objKeys]

/-- Witness for C6 at a concrete input. -/
theorem c6_witness :
    sampleSearchRequest.filters = some
      { dateFilter := none, contentFilter := some
          { includedContentCategories := ["PETS"],
            excludedContentCategories := [] },
        mediaTypeFilter := none, featureFilter := none,
        includeArchivedMedia := false, excludeNonAppCreatedData := false } ∧
    (("dateFilter" ∈ gphoto.objKeys (gphoto.encodeFilters
        { dateFilter := none, contentFilter := some
            { includedContentCategories := ["PETS"],
              excludedContentCategories := [] },
          mediaTypeFilter := none, featureFilter := none,
          includeArchivedMedia := false, excludeNonAppCreatedData := false }) ↔
        (none : Option gphoto.DateFilter).isSome) ∧
     ("contentFilter" ∈ gphoto.objKeys (gphoto.encodeFilters
        { dateFilter := none, contentFilter := some
            { includedContentCategories := ["PETS"],
              excludedContentCategories := [] },
          mediaTypeFilter := none, featureFilter := none,
          includeArchivedMedia := false, excludeNonAppCreatedData := false }) ↔
        (some { includedContentCategories := ["PETS"],
                excludedContentCategories := [] } :
          Option gphoto.ContentFilter).isSome)) :=
  ⟨rfl,
   ((c6_search_wire_request (gphoto.NewClient "T") sampleSearchRequest
       Transport.netFail).2.2 _ rfl).1,
   ((c6_search_wire_request (gphoto.NewClient "T") sampleSearchRequest
       Transport.netFail).2.2 _ rfl).2.1⟩

lemma queryOf_concat (base rest : String) (hb : '?' ∉ base.data)
    (hr : '#' ∉ rest.data) : queryOf (base ++ ("?" ++ rest)) = rest := by
  have hd : (base ++ ("?" ++ rest)).data = base.data ++ '?' :: rest.data := by
    simp [String.data_append]
  unfold queryOf
  rw [hd, dropToQuery_append rest.data hb,
    takeWhile_eq_self (by intro a ha; simpa using fun he : a = '#' => hr (he ▸ ha))]

/-- C4 as stated is false: parameter values are inserted into the URL
with no percent-encoding, so a scope containing `&` leaks extra
parameters into the query string — with scope `a&b` the query contains a
parameter named `b`, outside the claimed exact parameter set. -/
theorem c4_counterexample :
    "b" ∈ (queryParams (queryOf (goauth2.Client.GetOAuthURI
        { clientID := "id", clientSecret := "s", accessToken := "",
          accessTokenExpire := 0, refreshToken := "", scope := "a&b" }))).map
          Prod.fst ∧
    "b" ∉ ["client_id", "redirect_uri", "scope", "access_type",
           "response_type"] := by
  constructor
  · decide
  · decide

/-- C4 (amended): when the client id and scope contain no `&` and no
`#`, the URL's query string consists of exactly the five parameters
`client_id`, `redirect_uri=urn:ietf:wg:oauth:2.0:oob`, `scope`,
`access_type=offline`, `response_type=code`, with the client id and
scope values inserted verbatim and NOT percent-encoded; and — for every
client id and scope whatsoever — the URL is the literal concatenation in
which the fixed redirect URI, access type and response type appear
verbatim. -/
theorem c4_oauth_uri_query (c : goauth2.Client) :
    (('&' ∉ c.clientID.data ∧ '#' ∉ c.clientID.data ∧
      '&' ∉ c.scope.data ∧ '#' ∉ c.scope.data) →
      queryParams (queryOf c.GetOAuthURI) =
        [("client_id", c.clientID),
         ("redirect_uri", "urn:ietf:wg:oauth:2.0:oob"),
         ("scope", c.scope),
         ("access_type", "offline"),
         ("response_type", "code")]) ∧
    c.GetOAuthURI = goauth2.oauthURI ++ "?" ++ "&client_id=" ++ c.clientID
      ++ "&redirect_uri=" ++ "urn:ietf:wg:oauth:2.0:oob"
      ++ "&scope=" ++ c.scope
      ++ "&access_type=" ++ "offline" ++ "&response_type=" ++ "code" := by
  constructor
  · rintro ⟨h1, h2, h3, h4⟩
    have hsplit : c.GetOAuthURI =
        goauth2.oauthURI ++ ("?" ++ ("&client_id=" ++ (c.clientID ++
          ("&redirect_uri=" ++ ("urn:ietf:wg:oauth:2.0:oob" ++
          ("&scope=" ++ (c.scope ++ ("&access_type=" ++ ("offline" ++
          ("&response_type=" ++ "code")))))))))) := by
      apply String.ext
      simp [goauth2.Client.GetOAuthURI, goauth2.oauthURI, goauth2.redirectURI,
        goauth2.accessType, goauth2.responseType, String.data_append,
        List.append_assoc]
    have hrest : '#' ∉ ("&client_id=" ++ (c.clientID ++ ("&redirect_uri=" ++
        ("urn:ietf:wg:oauth:2.0:oob" ++ ("&scope=" ++ (c.scope ++
        ("&access_type=" ++ ("offline" ++
        ("&response_type=" ++ "code"))))))))).data := by
      simp only [String.data_append, List.mem_append, not_or]
      exact ⟨by decide, h2, by decide, by decide, by decide, h4, by decide,
        by decide, by decide, by decide⟩
    rw [hsplit, queryOf_concat _ _ (by decide) hrest]
    have hmk : ("&client_id=" ++ (c.clientID ++ ("&redirect_uri=" ++
        ("urn:ietf:wg:oauth:2.0:oob" ++ ("&scope=" ++ (c.scope ++
        ("&access_type=" ++ ("offline" ++ ("&response_type=" ++ "code"))))))))) =
        String.mk (([(("client_id" : String).data, c.clientID.data),
          (("redirect_uri" : String).data,
            ("urn:ietf:wg:oauth:2.0:oob" : String).data),
          (("scope" : String).data, c.scope.data),
          (("access_type" : String).data, ("offline" : String).data),
          (("response_type" : String).data,
            ("code" : String).data)].map ampChunk).flatten) := by
      apply String.ext
      simp [ampChunk, String.data_append, List.append_assoc]
    have hps : ∀ p ∈ [(("client_id" : String).data, c.clientID.data),
          (("redirect_uri" : String).data,
            ("urn:ietf:wg:oauth:2.0:oob" : String).data),
          (("scope" : String).data, c.scope.data),
          (("access_type" : String).data, ("offline" : String).data),
          (("response_type" : String).data, ("code" : String).data)],
        '&' ∉ p.1 ∧ '=' ∉ p.1 ∧ '&' ∉ p.2 := by
      intro p hp
      simp only [List.mem_cons, List.not_mem_nil, or_false] at hp
      rcases hp with h | h | h | h | h <;> subst h
      · exact ⟨by simp, by simp, h1⟩
      · exact ⟨by decide, by decide, by decide⟩
      · exact ⟨by simp, by simp, h3⟩
      · exact ⟨by decide, by decide, by decide⟩
      · exact ⟨by decide, by decide, by decide⟩
    rw [hmk, queryParams_chunks _ hps]
    rfl
  · rfl

/-- Witness for the amended C4 at a concrete input. -/
theorem c4_witness :
    (('&' ∉ ("id" : String).data ∧ '#' ∉ ("id" : String).data ∧
      '&' ∉ ("sc.ope" : String).data ∧ '#' ∉ ("sc.ope" : String).data)) ∧
    queryParams (queryOf (goauth2.Client.GetOAuthURI
        { clientID := "id", clientSecret := "s", accessToken := "",
          accessTokenExpire := 0, refreshToken := "", scope := "sc.ope" })) =
      [("client_id", "id"),
       ("redirect_uri", "urn:ietf:wg:oauth:2.0:oob"),
       ("scope", "sc.ope"),
       ("access_type", "offline"),
       ("response_type", "code")] :=
  ⟨⟨by decide, by decide, by decide, by decide⟩,
   (c4_oauth_uri_query
     { clientID := "id", clientSecret := "s", accessToken := "",
       accessTokenExpire := 0, refreshToken := "", scope := "sc.ope" }).1
     ⟨by decide, by decide, by decide, by decide⟩⟩
